import Mathlib

/-!
Verification of the finger-counting hand tracker (`hand_tracker.py`).

The embedding models:
* `Landmark` — one entry of `lm_list`: a dictionary `{'x': …, 'y': …}` whose
  coordinates are integers (the caller builds them with
  `int(lm.x * frame.shape[1])` / `int(lm.y * frame.shape[0])`).
* `count_fingers` — the classifier `HandGestureCounter.count_fingers`.
  Thresholds are modelled as rationals; every comparison the code performs is
  between an integer distance and a threshold, so rationals render the same
  ordering facts exactly.  Index accesses `lm_list[4]`, … become `List.get?`;
  a missing index (an `IndexError` in Python) is the `none` outcome.
* `hand_side` — the left/right labelling in `run`
  (`"Left" if lm_list[0]['x'] < frame.shape[1] // 2 else "Right"`).
* a small trace model of `run`'s main loop for the resource-cleanup property.
-/

namespace HandTracker

/-- One landmark dictionary `{'x': …, 'y': …}` as built in `run`:
both coordinates are Python ints. -/
structure Landmark where
  x : Int
  y : Int
deriving Repr, DecidableEq

/-- Line 102: `thumb_index_dist = abs(thumb_tip['y'] - index_tip['y'])`. -/
def thumb_index_dist (thumb_tip index_tip : Landmark) : Int :=
  |thumb_tip.y - index_tip.y|

/-- Line 106: `index_middle_dist = abs(index_tip['y'] - middle_tip['y'])`. -/
def index_middle_dist (index_tip middle_tip : Landmark) : Int :=
  |index_tip.y - middle_tip.y|

/-- The straight-line body of `count_fingers` after the five index accesses
have succeeded: the closed-fist check (line 109) followed by the per-finger
counting (lines 113-134).  Each guarded `finger_count += 1` is rendered as
adding `if … then 1 else 0`; the final unconditional little-finger
`finger_count += 1` is the trailing `+ 1`. -/
def count_fingers_core (thumb_tip index_tip middle_tip ring_tip little_tip : Landmark)
    (thumb_index_threshold index_middle_threshold : ℚ) : Int :=
  if (thumb_index_dist thumb_tip index_tip : ℚ) < thumb_index_threshold ∧
      (index_middle_dist index_tip middle_tip : ℚ) < index_middle_threshold then
    0
  else
    (if thumb_tip.y < index_tip.y then (1 : Int) else 0) +
    (if index_tip.y < middle_tip.y then 1 else 0) +
    (if middle_tip.y < ring_tip.y then 1 else 0) +
    (if ring_tip.y < little_tip.y then 1 else 0) +
    1

/-- `HandGestureCounter.count_fingers`.  The five subscript accesses
`lm_list[4]`, `lm_list[8]`, `lm_list[12]`, `lm_list[16]`, `lm_list[20]`
are modelled by `List.get?`; if any is out of range the Python code raises
`IndexError`, modelled here as `none`. -/
def count_fingers (lm_list : List Landmark)
    (thumb_index_threshold index_middle_threshold : ℚ) : Option Int :=
  match lm_list.get? 4, lm_list.get? 8, lm_list.get? 12,
      lm_list.get? 16, lm_list.get? 20 with
  | some thumb_tip, some index_tip, some middle_tip, some ring_tip, some little_tip =>
      some (count_fingers_core thumb_tip index_tip middle_tip ring_tip little_tip
        thumb_index_threshold index_middle_threshold)
  | _, _, _, _, _ => none

/-- The initial threshold values set in `__init__`
(`self.thumb_index_threshold = 0.1`, `self.index_middle_threshold = 0.1`). -/
def initial_threshold : ℚ := 1 / 10

/-- The slider callbacks `on_thumb_index_threshold_change` /
`on_index_middle_threshold_change`: a slider position `value ∈ 0..100`
becomes the threshold `value / 100.0`. -/
def threshold_of_slider (value : ℕ) : ℚ := (value : ℚ) / 100

/-- Every threshold the program can hold is in `[0, 1]`: the initial value is
`0.1` and a slider update with `value ≤ 100` yields `value / 100 ≤ 1`. -/
theorem threshold_range (value : ℕ) (hv : value ≤ 100) :
    0 ≤ threshold_of_slider value ∧ threshold_of_slider value ≤ 1 ∧
      0 ≤ initial_threshold ∧ initial_threshold ≤ 1 := by
  refine ⟨by unfold threshold_of_slider; positivity, ?_,
    by norm_num [initial_threshold], by norm_num [initial_threshold]⟩
  unfold threshold_of_slider
  rw [div_le_one (by norm_num)]
  exact_mod_cast hv

/-- The left/right labelling in `run` (line 178):
`hand_side = "Left" if lm_list[0]['x'] < frame.shape[1] // 2 else "Right"`.
`frame.shape[1]` is the frame width, a natural number; `//` is floor
division, which on naturals is `Nat.div`. -/
def hand_side (wrist_x : Int) (frame_width : ℕ) : String :=
  if wrist_x < ((frame_width / 2 : ℕ) : Int) then "Left" else "Right"

/-- One iteration's worth of external input to the main loop of `run`:
whether `self.cap.read()` succeeded, and the key code `cv2.waitKey(1)`
reports at the end of the iteration. -/
structure FrameInput where
  read_ok : Bool
  key : ℕ
deriving Repr, DecidableEq

/-- Observable resource/UI events emitted by `run`. -/
inductive UIEvent where
  | show_frame
  | cap_release
  | destroy_all_windows
  | destroy_window (name : String)
deriving Repr, DecidableEq

/-- `ord('q')`, the quit key checked at line 195. -/
def q_key : ℕ := 113

/-- The `while True:` loop of `run` (lines 143-196).  Each iteration reads a
frame; on read failure it breaks immediately; otherwise the frame is processed
and shown, and if `cv2.waitKey(1) == ord('q')` the loop breaks after showing.
The result is `some trace` when the loop exits within the supplied inputs and
`none` when the supplied inputs are exhausted with the loop still running. -/
def run_loop : List FrameInput → Option (List UIEvent)
  | [] => none
  | inp :: rest =>
    if inp.read_ok = false then
      some []
    else if inp.key = q_key then
      some [UIEvent.show_frame]
    else
      (run_loop rest).map (fun evs => UIEvent.show_frame :: evs)

/-- Lines 200-202, executed after the loop exits:
`self.cap.release()`, `cv2.destroyAllWindows()`,
`cv2.destroyWindow("Threshold Sliders")`. -/
def cleanup_events : List UIEvent :=
  [UIEvent.cap_release, UIEvent.destroy_all_windows,
    UIEvent.destroy_window "Threshold Sliders"]

/-- `HandGestureCounter.run`: the main loop followed by the cleanup code,
as an event trace.  `none` means the loop never exited within the supplied
inputs (so no trace is observed). -/
def run (inputs : List FrameInput) : Option (List UIEvent) :=
  (run_loop inputs).map (fun evs => evs ++ cleanup_events)

/- Concrete inputs used by counterexamples and witnesses. -/

/-- Twenty-one landmarks, all at the origin. -/
def all_zero_landmarks : List Landmark :=
  List.replicate 21 ⟨0, 0⟩

/-- Twenty-one landmarks whose fingertip y-coordinates strictly increase
along indices 4, 8, 12, 16, 20 (10, 20, 30, 40, 50). -/
def increasing_tip_landmarks : List Landmark :=
  [⟨0, 0⟩, ⟨0, 0⟩, ⟨0, 0⟩, ⟨0, 0⟩, ⟨0, 10⟩,
   ⟨0, 0⟩, ⟨0, 0⟩, ⟨0, 0⟩, ⟨0, 20⟩,
   ⟨0, 0⟩, ⟨0, 0⟩, ⟨0, 0⟩, ⟨0, 30⟩,
   ⟨0, 0⟩, ⟨0, 0⟩, ⟨0, 0⟩, ⟨0, 40⟩,
   ⟨0, 0⟩, ⟨0, 0⟩, ⟨0, 0⟩, ⟨0, 50⟩]

/-- Landmarks with y(8) = 10 (so the fist special case cannot fire at
threshold 0.1) and y(20) = 5, so the ring comparison y(16) < y(20) holds. -/
def ring_up_landmarks : List Landmark :=
  [⟨0, 0⟩, ⟨0, 0⟩, ⟨0, 0⟩, ⟨0, 0⟩, ⟨0, 0⟩,
   ⟨0, 0⟩, ⟨0, 0⟩, ⟨0, 0⟩, ⟨0, 10⟩,
   ⟨0, 0⟩, ⟨0, 0⟩, ⟨0, 0⟩, ⟨0, 0⟩,
   ⟨0, 0⟩, ⟨0, 0⟩, ⟨0, 0⟩, ⟨0, 0⟩,
   ⟨0, 0⟩, ⟨0, 0⟩, ⟨0, 0⟩, ⟨0, 5⟩]

/-- Identical to `ring_up_landmarks` except at index 20, whose y-coordinate
is -5, so the ring comparison y(16) < y(20) fails. -/
def ring_down_landmarks : List Landmark :=
  [⟨0, 0⟩, ⟨0, 0⟩, ⟨0, 0⟩, ⟨0, 0⟩, ⟨0, 0⟩,
   ⟨0, 0⟩, ⟨0, 0⟩, ⟨0, 0⟩, ⟨0, 10⟩,
   ⟨0, 0⟩, ⟨0, 0⟩, ⟨0, 0⟩, ⟨0, 0⟩,
   ⟨0, 0⟩, ⟨0, 0⟩, ⟨0, 0⟩, ⟨0, 0⟩,
   ⟨0, 0⟩, ⟨0, 0⟩, ⟨0, 0⟩, ⟨0, -5⟩]

/-- Identical to `all_zero_landmarks` except at index 20, which moves to
(3, -7); the ring comparison y(16) < y(20) is false in both. -/
def perturbed_little_landmarks : List Landmark :=
  List.replicate 20 ⟨0, 0⟩ ++ [⟨3, -7⟩]

/-- The end-to-end scenario of the spec: fingertip y-coordinates
y(4)=100, y(8)=50, y(12)=40, y(16)=30, y(20)=20, all other landmarks at the
origin. -/
def scenario_landmarks : List Landmark :=
  [⟨0, 0⟩, ⟨0, 0⟩, ⟨0, 0⟩, ⟨0, 0⟩, ⟨0, 100⟩,
   ⟨0, 0⟩, ⟨0, 0⟩, ⟨0, 0⟩, ⟨0, 50⟩,
   ⟨0, 0⟩, ⟨0, 0⟩, ⟨0, 0⟩, ⟨0, 40⟩,
   ⟨0, 0⟩, ⟨0, 0⟩, ⟨0, 0⟩, ⟨0, 30⟩,
   ⟨0, 0⟩, ⟨0, 0⟩, ⟨0, 0⟩, ⟨0, 20⟩]

/- Helper lemmas shared by the claim theorems. -/

/-- When all five fingertip accesses succeed, `count_fingers` is the
straight-line core on the five fingertips. -/
theorem count_fingers_eq_core {lm_list : List Landmark}
    {thumb_tip index_tip middle_tip ring_tip little_tip : Landmark}
    (hg4 : lm_list.get? 4 = some thumb_tip)
    (hg8 : lm_list.get? 8 = some index_tip)
    (hg12 : lm_list.get? 12 = some middle_tip)
    (hg16 : lm_list.get? 16 = some ring_tip)
    (hg20 : lm_list.get? 20 = some little_tip)
    (t1 t2 : ℚ) :
    count_fingers lm_list t1 t2 =
      some (count_fingers_core thumb_tip index_tip middle_tip ring_tip little_tip t1 t2) := by
  unfold count_fingers
  rw [hg4, hg8, hg12, hg16, hg20]

/-- The core always yields a value in `[0, 5]`. -/
theorem count_fingers_core_mem_range
    (a b c d e : Landmark) (t1 t2 : ℚ) :
    0 ≤ count_fingers_core a b c d e t1 t2 ∧ count_fingers_core a b c d e t1 t2 ≤ 5 := by
  unfold count_fingers_core
  split_ifs <;> omega

/-- If both fingertip distances are below their thresholds, `count_fingers`
takes the closed-fist branch and returns 0. -/
theorem count_fingers_fist_zero {lm_list : List Landmark} {t1 t2 : ℚ}
    {thumb_tip index_tip middle_tip ring_tip little_tip : Landmark}
    (hg4 : lm_list.get? 4 = some thumb_tip)
    (hg8 : lm_list.get? 8 = some index_tip)
    (hg12 : lm_list.get? 12 = some middle_tip)
    (hg16 : lm_list.get? 16 = some ring_tip)
    (hg20 : lm_list.get? 20 = some little_tip)
    (hd1 : (thumb_index_dist thumb_tip index_tip : ℚ) < t1)
    (hd2 : (index_middle_dist index_tip middle_tip : ℚ) < t2) :
    count_fingers lm_list t1 t2 = some 0 := by
  rw [count_fingers_eq_core hg4 hg8 hg12 hg16 hg20]
  unfold count_fingers_core
  rw [if_pos ⟨hd1, hd2⟩]

/-- Outside the closed-fist branch the core yields at least 1. -/
theorem count_fingers_core_pos
    (a b c d e : Landmark) (t1 t2 : ℚ)
    (h : ¬ ((thumb_index_dist a b : ℚ) < t1 ∧ (index_middle_dist b c : ℚ) < t2)) :
    1 ≤ count_fingers_core a b c d e t1 t2 := by
  unfold count_fingers_core
  rw [if_neg h]
  split_ifs <;> omega

/- Claim theorems. -/

/-- Claim C1: for every 21-landmark input and every threshold pair, if
|y(landmark 4) - y(landmark 8)| is below the thumb-index threshold and
|y(landmark 8) - y(landmark 12)| is below the index-middle threshold, then
`count_fingers` returns 0 (closed-fist special case). -/
theorem fist_below_thresholds_returns_zero
    (lm_list : List Landmark) (t1 t2 : ℚ)
    (thumb_tip index_tip middle_tip ring_tip little_tip : Landmark)
    (hl : lm_list.length = 21)
    (hg4 : lm_list.get? 4 = some thumb_tip)
    (hg8 : lm_list.get? 8 = some index_tip)
    (hg12 : lm_list.get? 12 = some middle_tip)
    (hg16 : lm_list.get? 16 = some ring_tip)
    (hg20 : lm_list.get? 20 = some little_tip)
    (hd1 : (thumb_index_dist thumb_tip index_tip : ℚ) < t1)
    (hd2 : (index_middle_dist index_tip middle_tip : ℚ) < t2) :
    count_fingers lm_list t1 t2 = some 0 :=
  count_fingers_fist_zero hg4 hg8 hg12 hg16 hg20 hd1 hd2

/-- Witness for C1: the all-zero landmark list with both thresholds 1. -/
theorem fist_below_thresholds_returns_zero_witness :
    count_fingers all_zero_landmarks 1 1 = some 0 :=
  fist_below_thresholds_returns_zero all_zero_landmarks 1 1
    ⟨0, 0⟩ ⟨0, 0⟩ ⟨0, 0⟩ ⟨0, 0⟩ ⟨0, 0⟩
    (by decide) (by decide) (by decide) (by decide) (by decide) (by decide)
    (by norm_num [thumb_index_dist]) (by norm_num [index_middle_dist])

/-- Claim C2: for every well-formed 21-landmark input and every threshold
pair, the value returned by `count_fingers` is an integer in `[0, 5]`. -/
theorem count_fingers_mem_range
    (lm_list : List Landmark) (t1 t2 : ℚ) (hl : lm_list.length = 21) :
    ∃ n : Int, count_fingers lm_list t1 t2 = some n ∧ 0 ≤ n ∧ n ≤ 5 := by
  have hg4 : lm_list.get? 4 = some (lm_list.get ⟨4, by omega⟩) := List.get?_eq_get _
  have hg8 : lm_list.get? 8 = some (lm_list.get ⟨8, by omega⟩) := List.get?_eq_get _
  have hg12 : lm_list.get? 12 = some (lm_list.get ⟨12, by omega⟩) := List.get?_eq_get _
  have hg16 : lm_list.get? 16 = some (lm_list.get ⟨16, by omega⟩) := List.get?_eq_get _
  have hg20 : lm_list.get? 20 = some (lm_list.get ⟨20, by omega⟩) := List.get?_eq_get _
  refine ⟨_, count_fingers_eq_core hg4 hg8 hg12 hg16 hg20 t1 t2, ?_, ?_⟩
  · exact (count_fingers_core_mem_range _ _ _ _ _ _ _).1
  · exact (count_fingers_core_mem_range _ _ _ _ _ _ _).2

/-- Witness for C2: the all-zero landmark list with both thresholds 1. -/
theorem count_fingers_mem_range_witness :
    ∃ n : Int, count_fingers all_zero_landmarks 1 1 = some n ∧ 0 ≤ n ∧ n ≤ 5 :=
  count_fingers_mem_range all_zero_landmarks 1 1 (by decide)

/-- Claim C5: if all five fingertip y-coordinates (landmarks 4, 8, 12, 16,
20) are equal and both thresholds are strictly positive, `count_fingers`
returns 0 regardless of the other landmarks. -/
theorem equal_tips_positive_thresholds_returns_zero
    (lm_list : List Landmark) (t1 t2 : ℚ)
    (thumb_tip index_tip middle_tip ring_tip little_tip : Landmark)
    (hl : lm_list.length = 21)
    (hg4 : lm_list.get? 4 = some thumb_tip)
    (hg8 : lm_list.get? 8 = some index_tip)
    (hg12 : lm_list.get? 12 = some middle_tip)
    (hg16 : lm_list.get? 16 = some ring_tip)
    (hg20 : lm_list.get? 20 = some little_tip)
    (he1 : thumb_tip.y = index_tip.y)
    (he2 : index_tip.y = middle_tip.y)
    (he3 : middle_tip.y = ring_tip.y)
    (he4 : ring_tip.y = little_tip.y)
    (ht1 : 0 < t1) (ht2 : 0 < t2) :
    count_fingers lm_list t1 t2 = some 0 := by
  have hd1 : thumb_index_dist thumb_tip index_tip = 0 := by
    unfold thumb_index_dist; rw [he1]; simp
  have hd2 : index_middle_dist index_tip middle_tip = 0 := by
    unfold index_middle_dist; rw [he2]; simp
  refine count_fingers_fist_zero hg4 hg8 hg12 hg16 hg20 ?_ ?_
  · rw [hd1]; exact_mod_cast ht1
  · rw [hd2]; exact_mod_cast ht2

/-- Witness for C5: the all-zero landmark list with thresholds 1/10. -/
theorem equal_tips_positive_thresholds_returns_zero_witness :
    count_fingers all_zero_landmarks (1 / 10) (1 / 10) = some 0 :=
  equal_tips_positive_thresholds_returns_zero all_zero_landmarks (1 / 10) (1 / 10)
    ⟨0, 0⟩ ⟨0, 0⟩ ⟨0, 0⟩ ⟨0, 0⟩ ⟨0, 0⟩
    (by decide) (by decide) (by decide) (by decide) (by decide) (by decide)
    rfl rfl rfl rfl (by norm_num) (by norm_num)

/-- Claim C7: for every landmark list with fewer than 21 elements,
`count_fingers` fails (the subscript access is out of range, modelled as
`none`) rather than returning a count. -/
theorem short_list_fails
    (lm_list : List Landmark) (t1 t2 : ℚ) (h : lm_list.length < 21) :
    count_fingers lm_list t1 t2 = none := by
  have hg20 : lm_list.get? 20 = none := List.get?_eq_none.mpr (by omega)
  unfold count_fingers
  rw [hg20]
  cases lm_list.get? 4 <;> cases lm_list.get? 8 <;>
    cases lm_list.get? 12 <;> cases lm_list.get? 16 <;> rfl

/-- Witness for C7: the empty landmark list. -/
theorem short_list_fails_witness :
    count_fingers [] 1 1 = none :=
  short_list_fails [] 1 1 (by decide)

/-- Claim C10 (implicit): whenever the closed-fist special case does not
fire, `count_fingers` returns at least 1; a return value of 0 can only come
from the closed-fist branch, because the little-finger increment is
unconditional. -/
theorem non_fist_returns_at_least_one
    (lm_list : List Landmark) (t1 t2 : ℚ)
    (thumb_tip index_tip middle_tip ring_tip little_tip : Landmark)
    (hg4 : lm_list.get? 4 = some thumb_tip)
    (hg8 : lm_list.get? 8 = some index_tip)
    (hg12 : lm_list.get? 12 = some middle_tip)
    (hg16 : lm_list.get? 16 = some ring_tip)
    (hg20 : lm_list.get? 20 = some little_tip)
    (hnf : ¬ ((thumb_index_dist thumb_tip index_tip : ℚ) < t1 ∧
      (index_middle_dist index_tip middle_tip : ℚ) < t2)) :
    ∃ n : Int, count_fingers lm_list t1 t2 = some n ∧ 1 ≤ n := by
  exact ⟨_, count_fingers_eq_core hg4 hg8 hg12 hg16 hg20 t1 t2,
    count_fingers_core_pos _ _ _ _ _ _ _ hnf⟩

/-- Witness for C10: the all-zero landmark list with both thresholds 0. -/
theorem non_fist_returns_at_least_one_witness :
    ∃ n : Int, count_fingers all_zero_landmarks 0 0 = some n ∧ 1 ≤ n :=
  non_fist_returns_at_least_one all_zero_landmarks 0 0
    ⟨0, 0⟩ ⟨0, 0⟩ ⟨0, 0⟩ ⟨0, 0⟩ ⟨0, 0⟩
    (by decide) (by decide) (by decide) (by decide) (by decide)
    (by norm_num [thumb_index_dist, index_middle_dist])

/-- Counterexample to C3: two 21-landmark inputs that agree everywhere
except at landmark 20, both outside the closed-fist special case (their
counts are nonzero), on which `count_fingers` returns different values
(3 versus 2): landmark 20's y-coordinate participates in the ring-finger
comparison y(16) < y(20). -/
theorem landmark20_perturbation_changes_count :
    (∀ i : Fin 21, (i : ℕ) ≠ 20 →
      ring_up_landmarks.get? (i : ℕ) = ring_down_landmarks.get? (i : ℕ)) ∧
    ¬ ((thumb_index_dist ⟨0, 0⟩ ⟨0, 10⟩ : ℚ) < 1 / 10 ∧
      (index_middle_dist ⟨0, 10⟩ ⟨0, 0⟩ : ℚ) < 1 / 10) ∧
    count_fingers ring_up_landmarks (1 / 10) (1 / 10) = some 3 ∧
    count_fingers ring_down_landmarks (1 / 10) (1 / 10) = some 2 := by
  refine ⟨by decide, by norm_num [thumb_index_dist], ?_, ?_⟩
  · rw [count_fingers_eq_core
      (show ring_up_landmarks.get? 4 = some ⟨0, 0⟩ by decide)
      (show ring_up_landmarks.get? 8 = some ⟨0, 10⟩ by decide)
      (show ring_up_landmarks.get? 12 = some ⟨0, 0⟩ by decide)
      (show ring_up_landmarks.get? 16 = some ⟨0, 0⟩ by decide)
      (show ring_up_landmarks.get? 20 = some ⟨0, 5⟩ by decide)]
    unfold count_fingers_core thumb_index_dist index_middle_dist
    norm_num
  · rw [count_fingers_eq_core
      (show ring_down_landmarks.get? 4 = some ⟨0, 0⟩ by decide)
      (show ring_down_landmarks.get? 8 = some ⟨0, 10⟩ by decide)
      (show ring_down_landmarks.get? 12 = some ⟨0, 0⟩ by decide)
      (show ring_down_landmarks.get? 16 = some ⟨0, 0⟩ by decide)
      (show ring_down_landmarks.get? 20 = some ⟨0, -5⟩ by decide)]
    unfold count_fingers_core thumb_index_dist index_middle_dist
    norm_num

/-- Claim C3 as amended: outside the closed-fist special case, the output of
`count_fingers` is invariant under perturbation of landmark 20 alone,
provided the perturbation preserves the truth value of the ring-finger
comparison y(16) < y(20); the little-finger contribution itself is
unconditional, but landmark 20's y-coordinate is also consumed by the
ring-finger comparison, so arbitrary perturbation is not sound. -/
theorem count_invariant_under_ring_preserving_landmark20_change
    (l l' : List Landmark) (t1 t2 : ℚ)
    (thumb_tip index_tip middle_tip ring_tip little_tip little_tip' : Landmark)
    (hg4 : l.get? 4 = some thumb_tip)
    (hg8 : l.get? 8 = some index_tip)
    (hg12 : l.get? 12 = some middle_tip)
    (hg16 : l.get? 16 = some ring_tip)
    (hg20 : l.get? 20 = some little_tip)
    (hg4' : l'.get? 4 = some thumb_tip)
    (hg8' : l'.get? 8 = some index_tip)
    (hg12' : l'.get? 12 = some middle_tip)
    (hg16' : l'.get? 16 = some ring_tip)
    (hg20' : l'.get? 20 = some little_tip')
    (hnf : ¬ ((thumb_index_dist thumb_tip index_tip : ℚ) < t1 ∧
      (index_middle_dist index_tip middle_tip : ℚ) < t2))
    (hring : ring_tip.y < little_tip.y ↔ ring_tip.y < little_tip'.y) :
    count_fingers l t1 t2 = count_fingers l' t1 t2 := by
  rw [count_fingers_eq_core hg4 hg8 hg12 hg16 hg20,
    count_fingers_eq_core hg4' hg8' hg12' hg16' hg20']
  unfold count_fingers_core
  rw [if_neg hnf, if_neg hnf]
  by_cases h : ring_tip.y < little_tip.y
  · rw [if_pos h, if_pos (hring.mp h)]
  · rw [if_neg h, if_neg (fun h' => h (hring.mpr h'))]

/-- Witness for the amended C3: the all-zero list versus the same list with
landmark 20 moved to (3, -7), thresholds 0, where the ring comparison
0 < y(20) is false on both sides. -/
theorem count_invariant_under_ring_preserving_landmark20_change_witness :
    count_fingers all_zero_landmarks 0 0 =
      count_fingers perturbed_little_landmarks 0 0 :=
  count_invariant_under_ring_preserving_landmark20_change
    all_zero_landmarks perturbed_little_landmarks 0 0
    ⟨0, 0⟩ ⟨0, 0⟩ ⟨0, 0⟩ ⟨0, 0⟩ ⟨0, 0⟩ ⟨3, -7⟩
    (by decide) (by decide) (by decide) (by decide) (by decide)
    (by decide) (by decide) (by decide) (by decide) (by decide)
    (by norm_num [thumb_index_dist, index_middle_dist]) (by decide)

/-- Claim C4: for every 21-landmark input whose fingertip y-coordinates are
strictly increasing along indices 4, 8, 12, 16, 20, and thresholds in the
program's range (each at most 1; the sliders produce values in [0, 1] and the
coordinates are integer pixels, so the fist case cannot fire),
`count_fingers` returns 5. -/
theorem strictly_increasing_tips_returns_five
    (lm_list : List Landmark) (t1 t2 : ℚ)
    (thumb_tip index_tip middle_tip ring_tip little_tip : Landmark)
    (hl : lm_list.length = 21)
    (hg4 : lm_list.get? 4 = some thumb_tip)
    (hg8 : lm_list.get? 8 = some index_tip)
    (hg12 : lm_list.get? 12 = some middle_tip)
    (hg16 : lm_list.get? 16 = some ring_tip)
    (hg20 : lm_list.get? 20 = some little_tip)
    (hi1 : thumb_tip.y < index_tip.y)
    (hi2 : index_tip.y < middle_tip.y)
    (hi3 : middle_tip.y < ring_tip.y)
    (hi4 : ring_tip.y < little_tip.y)
    (ht1 : t1 ≤ 1) (ht2 : t2 ≤ 1) :
    count_fingers lm_list t1 t2 = some 5 := by
  have hd1 : (1 : ℤ) ≤ thumb_index_dist thumb_tip index_tip := by
    unfold thumb_index_dist
    rw [abs_of_nonpos (by omega)]
    omega
  have hd1q : (1 : ℚ) ≤ (thumb_index_dist thumb_tip index_tip : ℚ) := by
    exact_mod_cast hd1
  rw [count_fingers_eq_core hg4 hg8 hg12 hg16 hg20]
  unfold count_fingers_core
  rw [if_neg (fun hc => absurd hc.1 (not_lt.mpr (ht1.trans hd1q)))]
  rw [if_pos hi1, if_pos hi2, if_pos hi3, if_pos hi4]
  norm_num

/-- Witness for C4: the strictly increasing fingertip list with both
thresholds 1/10. -/
theorem strictly_increasing_tips_returns_five_witness :
    count_fingers increasing_tip_landmarks (1 / 10) (1 / 10) = some 5 :=
  strictly_increasing_tips_returns_five increasing_tip_landmarks (1 / 10) (1 / 10)
    ⟨0, 10⟩ ⟨0, 20⟩ ⟨0, 30⟩ ⟨0, 40⟩ ⟨0, 50⟩
    (by decide) (by decide) (by decide) (by decide) (by decide) (by decide)
    (by decide) (by decide) (by decide) (by decide)
    (by norm_num) (by norm_num)

/-- Counterexample to C6: in the literal scenario (y(4)=100, y(8)=50,
y(12)=40, y(16)=30, y(20)=20, thresholds 0.1), the index finger is NOT
counted as up — the comparison at the index-finger step is
y(8) < y(12), i.e. 50 < 40, which is false — and `count_fingers` returns 1,
not a count that includes an index-finger contribution. -/
theorem scenario_index_finger_not_up :
    scenario_landmarks.get? 8 = some ⟨0, 50⟩ ∧
    scenario_landmarks.get? 12 = some ⟨0, 40⟩ ∧
    ¬ ((50 : Int) < 40) ∧
    count_fingers scenario_landmarks (1 / 10) (1 / 10) = some 1 := by
  refine ⟨by decide, by decide, by decide, ?_⟩
  rw [count_fingers_eq_core
    (show scenario_landmarks.get? 4 = some ⟨0, 100⟩ by decide)
    (show scenario_landmarks.get? 8 = some ⟨0, 50⟩ by decide)
    (show scenario_landmarks.get? 12 = some ⟨0, 40⟩ by decide)
    (show scenario_landmarks.get? 16 = some ⟨0, 30⟩ by decide)
    (show scenario_landmarks.get? 20 = some ⟨0, 20⟩ by decide)]
  unfold count_fingers_core thumb_index_dist index_middle_dist
  norm_num

/-- Claim C6 as amended: in the literal scenario, thumb_index_dist = 50 and
index_middle_dist = 10, both exceed their thresholds, so the classifier
proceeds to per-finger counting; the thumb is not counted (100 < 50 is
false) and the index finger is not counted either (50 < 40 is false); only
the unconditional little-finger increment applies and `count_fingers`
returns 1. -/
theorem scenario_evaluates_to_one :
    thumb_index_dist ⟨0, 100⟩ ⟨0, 50⟩ = 50 ∧
    index_middle_dist ⟨0, 50⟩ ⟨0, 40⟩ = 10 ∧
    ¬ ((thumb_index_dist ⟨0, 100⟩ ⟨0, 50⟩ : ℚ) < 1 / 10) ∧
    ¬ ((index_middle_dist ⟨0, 50⟩ ⟨0, 40⟩ : ℚ) < 1 / 10) ∧
    ¬ ((100 : Int) < 50) ∧
    ¬ ((50 : Int) < 40) ∧
    count_fingers scenario_landmarks (1 / 10) (1 / 10) = some 1 := by
  refine ⟨by decide, by decide, by norm_num [thumb_index_dist],
    by norm_num [index_middle_dist], by decide, by decide, ?_⟩
  rw [count_fingers_eq_core
    (show scenario_landmarks.get? 4 = some ⟨0, 100⟩ by decide)
    (show scenario_landmarks.get? 8 = some ⟨0, 50⟩ by decide)
    (show scenario_landmarks.get? 12 = some ⟨0, 40⟩ by decide)
    (show scenario_landmarks.get? 16 = some ⟨0, 30⟩ by decide)
    (show scenario_landmarks.get? 20 = some ⟨0, 20⟩ by decide)]
  unfold count_fingers_core thumb_index_dist index_middle_dist
  norm_num

/-- Claim C8: a hand is labeled "Left" exactly when the wrist landmark's
x-coordinate is strictly less than half the frame width (the code computes
the midpoint as integer floor division `frame.shape[1] // 2`), and an
x-coordinate equal to that midpoint is labeled "Right". -/
theorem hand_side_left_iff (wrist_x : Int) (frame_width : ℕ) :
    (hand_side wrist_x frame_width = "Left" ↔
      wrist_x < ((frame_width / 2 : ℕ) : Int)) ∧
    (wrist_x = ((frame_width / 2 : ℕ) : Int) →
      hand_side wrist_x frame_width = "Right") := by
  constructor
  · constructor
    · intro hL
      by_contra hx
      unfold hand_side at hL
      rw [if_neg hx] at hL
      exact absurd hL (by decide)
    · intro hx
      unfold hand_side
      rw [if_pos hx]
  · intro he
    unfold hand_side
    rw [if_neg (by rw [he]; exact lt_irrefl _)]

/-- Witness for C8: with frame width 2 the midpoint is 1; x = 0 is "Left"
and x = 1 (equal to the midpoint) is "Right". -/
theorem hand_side_left_iff_witness :
    hand_side 0 2 = "Left" ∧ hand_side 1 2 = "Right" :=
  ⟨(hand_side_left_iff 0 2).1.mpr (by decide),
    (hand_side_left_iff 1 2).2 (by decide)⟩

/-- Claim C9: on every exit of `run`'s main loop — read failure or the 'q'
key — the observed trace ends with the camera release and the destruction of
all UI windows: the cleanup events are a suffix of every trace `run`
produces. -/
theorem run_exit_performs_cleanup
    (inputs : List FrameInput) (trace : List UIEvent)
    (h : run inputs = some trace) :
    cleanup_events <:+ trace := by
  unfold run at h
  cases hl : run_loop inputs with
  | none => rw [hl] at h; exact absurd h (by simp)
  | some evs =>
      rw [hl] at h
      simp only [Option.map_some', Option.some.injEq] at h
      exact ⟨evs, h⟩

/-- Witness for C9: a single failed camera read exits the loop and the trace
is exactly the cleanup sequence. -/
theorem run_exit_performs_cleanup_witness :
    run [⟨false, 0⟩] = some cleanup_events ∧ cleanup_events <:+ cleanup_events :=
  ⟨rfl, run_exit_performs_cleanup [⟨false, 0⟩] cleanup_events rfl⟩

end HandTracker
